import Mathlib

/-!
Shallow embedding of the backend of the medical prescription verification
service (files `backend/helpers.py` and `backend/main.py`).

The two HTTP endpoints `check_interactions` and `dosage_alternatives` are
modelled as pure functions parameterised over their external collaborators:
the entity extractor (`query_hugging_face_ner`), the identifier resolver
(`get_rxcui`), the dosage-form and alternatives lookups, and the reference
interaction dataset (the pandas frame `ddi_df`): the loaded frame is either
a table parsed from the CSV, modelled as a list of rows, or the column-less
`pd.DataFrame()` produced when the file is missing, on which column access
raises. Raising `HTTPException(status, detail)` is modelled as a dedicated
response constructor; Python `None` becomes `Option.none`; an uncaught
Python exception becomes `Except.error`.
-/

namespace MedVerify

/-- Does `pat` match at the head of `s`? Helper for Python substring tests. -/
def subAt : List Char → List Char → Bool
  | [], _ => true
  | _ :: _, [] => false
  | p :: ps, c :: cs => p == c && subAt ps cs

/-- Does `pat` occur anywhere in `s`? Helper for Python substring tests. -/
def hasSub (pat : List Char) : List Char → Bool
  | [] => subAt pat []
  | c :: cs => subAt pat (c :: cs) || hasSub pat cs

/-- Python `sub in s` on strings (substring containment). -/
def pyIn (sub s : String) : Bool :=
  hasSub sub.toList s.toList

/-- Python `s.lower()`; the texts involved are ASCII, where `Char.toLower`
agrees with Python. -/
def pyLower (s : String) : String :=
  ⟨s.toList.map Char.toLower⟩

/-- One row of the reference interaction dataset
`ddi_mapped_with_rxcui.csv`, with the column names used by `main.py`. -/
structure DDIRow where
  RxCUI_1 : String
  RxCUI_2 : String
  Drug_1 : String
  Drug_2 : String
  Interaction_Description : String
deriving Repr, DecidableEq

/-- The pandas frame `ddi_df` as this program can produce it: either a
table parsed from the CSV, carrying the five expected columns (possibly
with zero rows), or the column-less `pd.DataFrame()` that
`load_ddi_dataset` returns when the file is missing. The distinction
matters: column access on the column-less frame raises `KeyError`. -/
inductive DDIFrame where
  | table : List DDIRow → DDIFrame
  | emptyNoColumns : DDIFrame
deriving Repr, DecidableEq

/-- `helpers.load_ddi_dataset`: the parsed table when the CSV file is
present, and the column-less `pd.DataFrame()` when it is missing
(`FileNotFoundError` caught, warning printed). -/
def load_ddi_dataset (file : Option (List DDIRow)) : DDIFrame :=
  match file with
  | some rows => .table rows
  | none => .emptyNoColumns

/-- `helpers.get_ibm_granite_alerts`: keyword classification of the
lower-cased interaction description (helpers.py lines 79-94). -/
def get_ibm_granite_alerts (text : String) : String :=
  let text_lower := pyLower text
  if pyIn "increase" text_lower || pyIn "risk" text_lower
      || pyIn "harmful" text_lower || pyIn "severe" text_lower then
    "❗️ Severe interaction detected. Immediate consultation advised."
  else if pyIn "decrease" text_lower || pyIn "monitor" text_lower
      || pyIn "caution" text_lower then
    "⚠️ High-risk interaction detected. Use with caution."
  else
    "✅ No severe interaction risk detected. Monitor patient as usual."

/-- `helpers.get_rxcui`: possible outcomes of the single RxNorm request it
makes. `requestError` covers `requests.RequestException` (raised by `get` or
`raise_for_status`); `jsonData g` is a parsed JSON body, where `g` describes
the part the code inspects: `none` means no `idGroup` key, `some none` means
an `idGroup` without an `rxnormId` key, `some (some ids)` means
`data` `idGroup` `rxnormId` is the list `ids`. -/
inductive RxnavResponse where
  | requestError : RxnavResponse
  | jsonData : Option (Option (List String)) → RxnavResponse
deriving Repr, DecidableEq

/-- `helpers.get_rxcui` (helpers.py lines 97-118), as a function of the
service response for the queried name. The `try` block only catches
`requests.RequestException`; indexing `rxnormId[0]` on an empty list raises
an uncaught `IndexError`, modelled as `Except.error`. -/
def get_rxcui (drug_name : String) (resp : RxnavResponse) :
    Except String (Option String) :=
  match drug_name, resp with
  | _, .requestError => .ok none
  | _, .jsonData none => .ok none
  | _, .jsonData (some none) => .ok none
  | _, .jsonData (some (some [])) => .error "IndexError: list index out of range"
  | _, .jsonData (some (some (rxcui :: _))) => .ok (some rxcui)

/-- One element of the `interactions` list built by
`main.check_interactions` (main.py lines 75-82). -/
structure InteractionResult where
  drug1 : String
  drug2 : String
  rxcui1 : String
  rxcui2 : String
  description : String
  alert : String
deriving Repr, DecidableEq

/-- Outcome of the `/check_interactions` endpoint: either a raised
`HTTPException` or the JSON body `message` + `interactions`. -/
inductive CheckResponse where
  | HTTPException (status_code : Nat) (detail : String) : CheckResponse
  | response (message : String) (interactions : List InteractionResult) : CheckResponse
deriving Repr, DecidableEq

/-- The pandas mask of main.py lines 66-69 against a parsed table (a frame
that has the expected columns): all dataset rows whose
`(RxCUI_1, RxCUI_2)` equals the queried pair in either order, in row order. -/
def lookupPair (ddi_df : List DDIRow) (rxcui1 rxcui2 : String) : List DDIRow :=
  ddi_df.filter fun row =>
    (row.RxCUI_1 == rxcui1 && row.RxCUI_2 == rxcui2)
      || (row.RxCUI_1 == rxcui2 && row.RxCUI_2 == rxcui1)

/-- The pair query of main.py lines 66-69 against the loaded frame: on the
column-less `pd.DataFrame()` produced for a missing file, the very first
column access `ddi_df` `RxCUI_1` raises an uncaught `KeyError`; on a parsed
table it is the either-order mask `lookupPair`. -/
def lookupPairFrame (ddi_df : DDIFrame) (rxcui1 rxcui2 : String) :
    Except String (List DDIRow) :=
  match ddi_df with
  | .emptyNoColumns => .error "KeyError: RxCUI_1"
  | .table rows => .ok (lookupPair rows rxcui1 rxcui2)

/-- The nested `i < j` loop of main.py lines 61-64: all position pairs of
the resolved-identifier list, first index ascending, second index after the
first. -/
def allPairs : List String → List (String × String)
  | [] => []
  | x :: xs => (xs.map fun y => (x, y)) ++ allPairs xs

/-- The dict appended for one matching dataset row (main.py lines 72-82):
every field is copied from the row, and the alert is computed from the
row's description. -/
def mkInteractionResult (row : DDIRow) : InteractionResult :=
  { drug1 := row.Drug_1
    drug2 := row.Drug_2
    rxcui1 := row.RxCUI_1
    rxcui2 := row.RxCUI_2
    description := row.Interaction_Description
    alert := get_ibm_granite_alerts row.Interaction_Description }

/-- Python dict-comprehension key order: the distinct drug names of
`extracted_drugs` in order of first occurrence (`seen` accumulates the keys
already inserted). -/
def dedupFirst (seen : List String) : List String → List String
  | [] => []
  | d :: ds => if seen.contains d then dedupFirst seen ds
               else d :: dedupFirst (d :: seen) ds

/-- main.py lines 52-55: `rxcui_map = \x7bdrug: get_rxcui(drug) for drug in
extracted_drugs\x7d` followed by `found_rxcui = [rxcui for rxcui in
rxcui_map.values() if rxcui is not None]`: one resolution per distinct
name, keeping the non-`None` results in insertion order. -/
def found_rxcui (get_rx : String → Option String) (extracted_drugs : List String) :
    List String :=
  (dedupFirst [] extracted_drugs).filterMap get_rx

/-- The interaction list built by the pair loop of main.py lines 61-82: for
each enumerated pair, one `InteractionResult` per matching dataset row. -/
def interactionsFor (ddi_df : List DDIRow) (found : List String) :
    List InteractionResult :=
  (allPairs found).flatMap fun p => (lookupPair ddi_df p.1 p.2).map mkInteractionResult

/-- main.py lines 55-84, the Interaction Engine proper: given the
resolved-identifier list, return the insufficient-drugs response when fewer
than 2 identifiers resolved, otherwise the pairwise matches. -/
def find_interactions (ddi_df : List DDIRow) (found : List String) : CheckResponse :=
  if found.length < 2 then
    .response "Not enough drugs with RxCUIs found to check for interactions." []
  else
    .response "Interactions checked successfully." (interactionsFor ddi_df found)

/-- The `/check_interactions` endpoint (main.py lines 43-84), parameterised
over the entity extractor and the per-name identifier resolver. -/
def check_interactions (ner : String → List String) (get_rx : String → Option String)
    (ddi_df : List DDIRow) (text : String) : CheckResponse :=
  if (ner text).isEmpty then
    .HTTPException 404 "No drugs found in the prescription."
  else
    find_interactions ddi_df (found_rxcui get_rx (ner text))

/-- The pair loop of main.py lines 61-82 run against the loaded frame,
query by query: the first raising query aborts the loop with its
exception, otherwise the matching rows of every pair are collected in
loop order. -/
def pairLoop (ddi_df : DDIFrame) :
    List (String × String) → Except String (List InteractionResult)
  | [] => .ok []
  | p :: ps =>
      match lookupPairFrame ddi_df p.1 p.2 with
      | .error e => .error e
      | .ok rows =>
          match pairLoop ddi_df ps with
          | .error e => .error e
          | .ok rest => .ok (rows.map mkInteractionResult ++ rest)

/-- main.py lines 55-84 against the loaded frame, uncaught Python
exceptions modelled in `Except` (the endpoint has no handler, so an
exception aborts the request). -/
def find_interactions_frame (ddi_df : DDIFrame) (found : List String) :
    Except String CheckResponse :=
  if found.length < 2 then
    .ok (.response "Not enough drugs with RxCUIs found to check for interactions." [])
  else
    match pairLoop ddi_df (allPairs found) with
    | .error e => .error e
    | .ok interactions => .ok (.response "Interactions checked successfully." interactions)

/-- The `/check_interactions` endpoint run against the loaded frame rather
than an assumed-parsed table; it agrees with `check_interactions` whenever
the frame is a parsed table (`check_interactions_frame_table`). -/
def check_interactions_frame (ner : String → List String)
    (get_rx : String → Option String) (ddi_df : DDIFrame) (text : String) :
    Except String CheckResponse :=
  if (ner text).isEmpty then
    .ok (.HTTPException 404 "No drugs found in the prescription.")
  else
    find_interactions_frame ddi_df (found_rxcui get_rx (ner text))

/-- One element of the `results` list built by `main.dosage_alternatives`
(main.py lines 109-115). -/
structure DosageEntry where
  drug : String
  rxcui : String
  dosage_forms : List String
  alternatives : List String
  dosage_status : String
deriving Repr, DecidableEq

/-- Outcome of the `/dosage_alternatives` endpoint. -/
inductive DosageResponse where
  | HTTPException (status_code : Nat) (detail : String) : DosageResponse
  | response (message : String) (results : List DosageEntry) : DosageResponse
deriving Repr, DecidableEq

/-- The age rule of main.py lines 102-107: a function of the patient age
and the raw prescription text only. -/
def dosage_status_of (age : Int) (text : String) : String :=
  if age < 18 ∧ pyIn "tablet" (pyLower text) then
    "May need dosage adjustment for children."
  else if 65 < age then
    "Monitor closely for elderly patients."
  else
    "Appropriate"

/-- The `results` contribution of one extracted drug (main.py lines
96-115). `if rxcui:` is Python truthiness, so both `None` and the empty
string produce no entry. -/
def entryFor (get_rx : String → Option String) (forms alts : String → List String)
    (age : Int) (text : String) (drug : String) : List DosageEntry :=
  match get_rx drug with
  | none => []
  | some rxcui =>
      if rxcui.isEmpty then []
      else
        [{ drug := drug
           rxcui := rxcui
           dosage_forms := forms rxcui
           alternatives := alts rxcui
           dosage_status := dosage_status_of age text }]

/-- The `/dosage_alternatives` endpoint (main.py lines 86-117),
parameterised over the entity extractor, identifier resolver and the two
RxNorm lookups. -/
def dosage_alternatives (ner : String → List String) (get_rx : String → Option String)
    (forms alts : String → List String) (text : String) (age : Int) : DosageResponse :=
  if (ner text).isEmpty then
    .HTTPException 404 "No drugs found in the prescription."
  else
    .response "Dosage and alternatives checked successfully."
      ((ner text).flatMap (entryFor get_rx forms alts age text))

/-- Unordered equality of identifier pairs. -/
def uEq (p q : String × String) : Bool :=
  (p.1 == q.1 && p.2 == q.2) || (p.1 == q.2 && p.2 == q.1)

/-! ## Helper lemmas -/

lemma pairLoop_table (rows : List DDIRow) (ps : List (String × String)) :
    pairLoop (.table rows) ps =
      .ok (ps.flatMap fun p => (lookupPair rows p.1 p.2).map mkInteractionResult) := by
  induction ps with
  | nil => rfl
  | cons p ps ih => simp [pairLoop, lookupPairFrame, ih]

/-- On a parsed table the frame-level endpoint raises nothing and returns
exactly what the table-level `check_interactions` builds. -/
lemma check_interactions_frame_table (ner : String → List String)
    (get_rx : String → Option String) (rows : List DDIRow) (text : String) :
    check_interactions_frame ner get_rx (.table rows) text =
      .ok (check_interactions ner get_rx rows text) := by
  unfold check_interactions_frame check_interactions
  split
  · rfl
  · unfold find_interactions_frame find_interactions
    split
    · rfl
    · rw [pairLoop_table]
      rfl

lemma flatMap_eq_nil_of_forall {α β : Type} (l : List α) (f : α → List β)
    (h : ∀ a ∈ l, f a = []) : l.flatMap f = [] := by
  induction l with
  | nil => rfl
  | cons x xs ih =>
      simp only [List.flatMap_cons, h x (by simp),
        ih fun a ha => h a (by simp [ha]), List.nil_append]

lemma eq_false_of_not_eq_true {b : Bool} (h : ¬ b = true) : b = false := by
  cases b
  · rfl
  · exact absurd rfl h

lemma uEq_eq_true_iff (p q : String × String) :
    uEq p q = true ↔ (p.1 = q.1 ∧ p.2 = q.2) ∨ (p.1 = q.2 ∧ p.2 = q.1) := by
  simp [uEq]

lemma mem_allPairs (l : List String) (p : String × String) (hp : p ∈ allPairs l) :
    p.1 ∈ l ∧ p.2 ∈ l := by
  induction l with
  | nil => simp [allPairs] at hp
  | cons x xs ih =>
      simp only [allPairs, List.mem_append, List.mem_map] at hp
      rcases hp with ⟨y, hy, rfl⟩ | hp
      · exact ⟨by simp, by simp [hy]⟩
      · exact ⟨List.mem_cons_of_mem x (ih hp).1, List.mem_cons_of_mem x (ih hp).2⟩

/-! ## Claims -/

/-- C1: for any dataset, pair lookup is symmetric in the queried pair, and
a row stored as `(X, Y)` is matched both when the query presents the pair
as `(X, Y)` and as `(Y, X)`. -/
theorem C1_pair_lookup_symmetric (ddi_df : List DDIRow) (row : DDIRow) (x y : String)
    (hrow : row ∈ ddi_df) (h1 : row.RxCUI_1 = x) (h2 : row.RxCUI_2 = y) :
    lookupPair ddi_df x y = lookupPair ddi_df y x ∧
      row ∈ lookupPair ddi_df x y ∧ row ∈ lookupPair ddi_df y x := by
  have hsym : lookupPair ddi_df x y = lookupPair ddi_df y x := by
    unfold lookupPair
    congr 1
    funext r
    exact Bool.or_comm _ _
  have hm : row ∈ lookupPair ddi_df x y := by
    unfold lookupPair
    refine List.mem_filter.mpr ⟨hrow, ?_⟩
    simp [h1, h2]
  exact ⟨hsym, hm, hsym ▸ hm⟩

theorem C1_pair_lookup_symmetric_witness :
    lookupPair [⟨"11", "22", "Paracetamol", "Warfarin", "d"⟩] "11" "22"
        = lookupPair [⟨"11", "22", "Paracetamol", "Warfarin", "d"⟩] "22" "11" ∧
      (⟨"11", "22", "Paracetamol", "Warfarin", "d"⟩ : DDIRow)
        ∈ lookupPair [⟨"11", "22", "Paracetamol", "Warfarin", "d"⟩] "11" "22" ∧
      (⟨"11", "22", "Paracetamol", "Warfarin", "d"⟩ : DDIRow)
        ∈ lookupPair [⟨"11", "22", "Paracetamol", "Warfarin", "d"⟩] "22" "11" :=
  C1_pair_lookup_symmetric _ _ "11" "22" (by decide) rfl rfl

/-- C2: the risk summarizer is the deterministic keyword classification of
the lower-cased description — severe-bucket keywords first, then the
caution-bucket keywords, else the no-risk message — and the three concrete
examples fall in the severe, high-risk and no-risk buckets respectively. -/
theorem C2_summarize_classification :
    (∀ d : String,
      get_ibm_granite_alerts d =
        if pyIn "increase" (pyLower d) || pyIn "risk" (pyLower d)
            || pyIn "harmful" (pyLower d) || pyIn "severe" (pyLower d) then
          "❗️ Severe interaction detected. Immediate consultation advised."
        else if pyIn "decrease" (pyLower d) || pyIn "monitor" (pyLower d)
            || pyIn "caution" (pyLower d) then
          "⚠️ High-risk interaction detected. Use with caution."
        else
          "✅ No severe interaction risk detected. Monitor patient as usual.") ∧
    get_ibm_granite_alerts "Risk of severe bleeding"
      = "❗️ Severe interaction detected. Immediate consultation advised." ∧
    get_ibm_granite_alerts "Monitor for caution"
      = "⚠️ High-risk interaction detected. Use with caution." ∧
    get_ibm_granite_alerts "No notable effect"
      = "✅ No severe interaction risk detected. Monitor patient as usual." :=
  ⟨fun _ => rfl, by decide, by decide, by decide⟩

/-- C3: the claim states the spec's intent (the engine degrades to empty
results when the dataset failed to load, never crashing), and the code
breaks it: with the file missing, `load_ddi_dataset` deliberately catches
`FileNotFoundError` and returns the column-less `pd.DataFrame()` so the
process still starts, but the first pair query then evaluates
`ddi_df` `RxCUI_1` on that frame and raises an uncaught `KeyError`, so a
request with 2 resolved identifiers aborts with an error instead of
succeeding with an empty interaction list. An empty but parsed table
(`table []`), by contrast, behaves as claimed. -/
theorem C3_missing_dataset_raises :
    check_interactions_frame (fun _ => ["Paracetamol", "Warfarin"])
        (fun d => if d == "Paracetamol" then some "161" else some "11289")
        (load_ddi_dataset none) "Paracetamol 500mg daily. Warfarin 10mg." =
      .error "KeyError: RxCUI_1" ∧
    (¬ ∃ msg : String,
      check_interactions_frame (fun _ => ["Paracetamol", "Warfarin"])
          (fun d => if d == "Paracetamol" then some "161" else some "11289")
          (load_ddi_dataset none) "Paracetamol 500mg daily. Warfarin 10mg." =
        .ok (.response msg [])) ∧
    check_interactions_frame (fun _ => ["Paracetamol", "Warfarin"])
        (fun d => if d == "Paracetamol" then some "161" else some "11289")
        (load_ddi_dataset (some [])) "Paracetamol 500mg daily. Warfarin 10mg." =
      .ok (.response "Interactions checked successfully." []) := by
  have heval : check_interactions_frame (fun _ => ["Paracetamol", "Warfarin"])
      (fun d => if d == "Paracetamol" then some "161" else some "11289")
      (load_ddi_dataset none) "Paracetamol 500mg daily. Warfarin 10mg." =
      .error "KeyError: RxCUI_1" := rfl
  refine ⟨heval, ?_, rfl⟩
  rintro ⟨msg, hmsg⟩
  rw [heval] at hmsg
  exact Except.noConfusion hmsg

/-- C4: when fewer than 2 identifiers resolved, the Interaction Engine
returns the explicit insufficient-drugs message with an empty interaction
list — and so does the `check_interactions` endpoint whenever extraction
found at least one drug but fewer than 2 identifiers resolved. -/
theorem C4_insufficient_drugs (ddi_df : List DDIRow) :
    (∀ found : List String, found.length < 2 →
      find_interactions ddi_df found =
        .response "Not enough drugs with RxCUIs found to check for interactions." []) ∧
    ∀ (ner : String → List String) (get_rx : String → Option String) (text : String),
      (ner text).isEmpty = false →
      (found_rxcui get_rx (ner text)).length < 2 →
      check_interactions ner get_rx ddi_df text =
        .response "Not enough drugs with RxCUIs found to check for interactions." [] := by
  have hfind : ∀ found : List String, found.length < 2 →
      find_interactions ddi_df found =
        .response "Not enough drugs with RxCUIs found to check for interactions." [] := by
    intro found h
    unfold find_interactions
    rw [if_pos h]
  refine ⟨hfind, ?_⟩
  intro ner get_rx text hne h
  unfold check_interactions
  rw [hne]
  exact hfind _ h

theorem C4_insufficient_drugs_witness :
    check_interactions (fun _ => ["Paracetamol", "Warfarin"])
        (fun d => if d == "Paracetamol" then some "161" else none) [] "t" =
      .response "Not enough drugs with RxCUIs found to check for interactions." [] :=
  (C4_insufficient_drugs []).2 (fun _ => ["Paracetamol", "Warfarin"])
    (fun d => if d == "Paracetamol" then some "161" else none) "t" rfl (by decide)

/-- C5: when the entity extractor returns no drug mentions, both endpoints
answer the distinct not-found condition `HTTPException 404` with the
"no drugs found" detail, rather than any other error. -/
theorem C5_no_drugs_is_404 (ner : String → List String) (get_rx : String → Option String)
    (ddi_df : List DDIRow) (forms alts : String → List String) (text : String) (age : Int)
    (h : ner text = []) :
    check_interactions ner get_rx ddi_df text =
      .HTTPException 404 "No drugs found in the prescription." ∧
    dosage_alternatives ner get_rx forms alts text age =
      .HTTPException 404 "No drugs found in the prescription." := by
  constructor
  · unfold check_interactions
    rw [h]
    rfl
  · unfold dosage_alternatives
    rw [h]
    rfl

theorem C5_no_drugs_is_404_witness :
    check_interactions (fun _ => []) (fun d => some d) [] "aspirin" =
      .HTTPException 404 "No drugs found in the prescription." ∧
    dosage_alternatives (fun _ => []) (fun d => some d) (fun _ => []) (fun _ => [])
        "aspirin" 30 =
      .HTTPException 404 "No drugs found in the prescription." :=
  C5_no_drugs_is_404 (fun _ => []) (fun d => some d) [] (fun _ => []) (fun _ => [])
    "aspirin" 30 rfl

/-- C6 counterexample: a service response whose `rxnormId` list is empty
makes `get_rxcui` raise an uncaught `IndexError` (the `except` clause only
catches `requests.RequestException`), so the claim that every response
shape yields an identifier-or-`None` without raising is false. -/
theorem C6_get_rxcui_counterexample :
    get_rxcui "Aspirin" (.jsonData (some (some []))) =
      .error "IndexError: list index out of range" ∧
    ¬ ∀ (name : String) (resp : RxnavResponse),
        ∃ r : Option String, get_rxcui name resp = .ok r := by
  refine ⟨rfl, fun h => ?_⟩
  obtain ⟨r, hr⟩ := h "Aspirin" (.jsonData (some (some [])))
  simp [get_rxcui] at hr

/-- C6 (amended): `get_rxcui` returns `none` without raising on a network
error and on responses lacking the `idGroup` or `rxnormId` key, and returns
the first identifier without raising when `rxnormId` is a non-empty list;
only a response carrying an empty `rxnormId` list escapes this and raises. -/
theorem C6_get_rxcui_none_on_handled_failures (name : String) :
    get_rxcui name .requestError = .ok none ∧
    get_rxcui name (.jsonData none) = .ok none ∧
    get_rxcui name (.jsonData (some none)) = .ok none ∧
    ∀ (x : String) (l : List String),
      get_rxcui name (.jsonData (some (some (x :: l)))) = .ok (some x) :=
  ⟨rfl, rfl, rfl, fun _ _ => rfl⟩

/-- C7: every entry of a successful `dosage_alternatives` response carries
the fixed three-way age label — child adjustment when age < 18 and the
lower-cased raw text contains "tablet", elderly monitoring when age > 65,
else "Appropriate" — a function of (age, raw text) only, identical for
every drug in the request. -/
theorem C7_dosage_status_rule (ner : String → List String)
    (get_rx : String → Option String) (forms alts : String → List String)
    (text : String) (age : Int) (msg : String) (results : List DosageEntry)
    (h : dosage_alternatives ner get_rx forms alts text age = .response msg results)
    (e : DosageEntry) (he : e ∈ results) :
    e.dosage_status =
      if age < 18 ∧ pyIn "tablet" (pyLower text) then
        "May need dosage adjustment for children."
      else if 65 < age then
        "Monitor closely for elderly patients."
      else
        "Appropriate" := by
  unfold dosage_alternatives at h
  split at h
  · exact absurd h (by simp)
  · injection h with hmsg hres
    subst hres
    obtain ⟨drug, hdrug, hmem⟩ := List.mem_flatMap.mp he
    cases hrx : get_rx drug with
    | none => simp [entryFor, hrx] at hmem
    | some rxcui =>
        simp only [entryFor, hrx] at hmem
        split at hmem
        · simp at hmem
        · rw [List.mem_singleton] at hmem
          rw [hmem]
          rfl

theorem C7_dosage_status_rule_witness :
    ({ drug := "Paracetamol", rxcui := "161", dosage_forms := [], alternatives := [],
       dosage_status := "May need dosage adjustment for children." } : DosageEntry).dosage_status =
      if (10 : Int) < 18 ∧ pyIn "tablet" (pyLower "one tablet daily") then
        "May need dosage adjustment for children."
      else if (65 : Int) < 10 then
        "Monitor closely for elderly patients."
      else
        "Appropriate" :=
  C7_dosage_status_rule (fun _ => ["Paracetamol"]) (fun _ => some "161")
    (fun _ => []) (fun _ => []) "one tablet daily" 10
    "Dosage and alternatives checked successfully."
    [{ drug := "Paracetamol", rxcui := "161", dosage_forms := [], alternatives := [],
       dosage_status := "May need dosage adjustment for children." }]
    (by decide) _ (by decide)

/-- C8 counterexample: with three extracted mentions of which the last two
resolve to the same identifier, the resolved list is `["1", "2", "2"]` and
the pair loop enumerates (hence queries) the unordered pair (1, 2) twice,
so the claim that no unordered identifier pair is evaluated more than once
even without deduplication is false. -/
theorem C8_duplicate_pair_counterexample :
    found_rxcui (fun d => if d == "Aspirin" then some "1" else some "2")
        ["Aspirin", "Tylenol", "Paracetamol"] = ["1", "2", "2"] ∧
    (allPairs ["1", "2", "2"]).countP (fun p => uEq p ("1", "2")) = 2 := by
  decide

/-- C8 (amended): the pair loop enumerates each unordered pair of positions
of the resolved-identifier list exactly once, so whenever the resolved
identifiers are pairwise distinct, no unordered identifier pair is queried
against the dataset more than once in a request; only duplicated resolved
identifiers make the same unordered pair be queried again. -/
theorem C8_nodup_no_pair_twice (found : List String) (h : found.Nodup) :
    (allPairs found).Pairwise (fun p q => uEq p q = false) := by
  induction found with
  | nil => simp [allPairs]
  | cons x xs ih =>
      rw [List.nodup_cons] at h
      obtain ⟨hx, hnd⟩ := h
      simp only [allPairs]
      rw [List.pairwise_append]
      refine ⟨?_, ih hnd, ?_⟩
      · rw [List.pairwise_map]
        refine List.Pairwise.imp ?_ hnd
        intro a b hab
        refine eq_false_of_not_eq_true fun hu => ?_
        rcases (uEq_eq_true_iff _ _).mp hu with ⟨-, h2⟩ | ⟨h1, h2⟩
        · exact hab h2
        · exact hab (h2.trans h1)
      · intro p hp q hq
        obtain ⟨y, hy, rfl⟩ := List.mem_map.mp hp
        have hq12 := mem_allPairs xs q hq
        refine eq_false_of_not_eq_true fun hu => ?_
        rcases (uEq_eq_true_iff _ _).mp hu with ⟨h1, -⟩ | ⟨h1, -⟩
        · exact hx (by rw [show x = q.1 from h1]; exact hq12.1)
        · exact hx (by rw [show x = q.2 from h1]; exact hq12.2)

theorem C8_nodup_no_pair_twice_witness :
    (allPairs ["1", "2", "3"]).Pairwise (fun p q => uEq p q = false) :=
  C8_nodup_no_pair_twice ["1", "2", "3"] (by decide)

/-- C9: an extracted drug whose resolution returns `None` contributes no
entry to the dosage results, and when every extracted drug fails to resolve
the endpoint still answers the success message with an empty results list
(no error, no not-found condition). -/
theorem C9_unresolved_drugs_skipped (get_rx : String → Option String)
    (forms alts : String → List String) (age : Int) (text : String) :
    (∀ drug : String, get_rx drug = none →
      entryFor get_rx forms alts age text drug = []) ∧
    ∀ ner : String → List String, (ner text).isEmpty = false →
      (∀ d ∈ ner text, get_rx d = none) →
      dosage_alternatives ner get_rx forms alts text age =
        .response "Dosage and alternatives checked successfully." [] := by
  have hentry : ∀ drug : String, get_rx drug = none →
      entryFor get_rx forms alts age text drug = [] := by
    intro drug h
    unfold entryFor
    rw [h]
  refine ⟨hentry, ?_⟩
  intro ner hne hall
  cases hn : ner text with
  | nil => rw [hn] at hne; exact absurd hne (by decide)
  | cons a l =>
      unfold dosage_alternatives
      rw [hn]
      rw [if_neg (by simp)]
      rw [flatMap_eq_nil_of_forall _ _ fun d hd => hentry d (hall d (hn ▸ hd))]

theorem C9_unresolved_drugs_skipped_witness :
    dosage_alternatives (fun _ => ["Aspirin", "Ibuprofen"]) (fun _ => none)
        (fun _ => []) (fun _ => []) "Aspirin and Ibuprofen" 30 =
      .response "Dosage and alternatives checked successfully." [] :=
  (C9_unresolved_drugs_skipped (fun _ => none) (fun _ => []) (fun _ => [])
    30 "Aspirin and Ibuprofen").2 (fun _ => ["Aspirin", "Ibuprofen"]) rfl
    (fun _ _ => rfl)

/-- C10: every `InteractionResult` of a successful `check_interactions`
response is built from a matching dataset row, each field copied from the
row as stored (names, identifiers and description from the row, alert from
the row's description) — and, concretely, a row stored as `(B, A)` queried
by the pair `(A, B)` is returned in the stored order, not the queried one. -/
theorem C10_result_fields_from_row :
    (∀ (ner : String → List String) (get_rx : String → Option String)
        (ddi_df : List DDIRow) (text msg : String) (res : List InteractionResult),
      check_interactions ner get_rx ddi_df text = .response msg res →
      ∀ x ∈ res, ∃ row ∈ ddi_df, x = mkInteractionResult row) ∧
    check_interactions (fun _ => ["Paracetamol", "Warfarin"])
        (fun d => if d == "Paracetamol" then some "161" else some "11289")
        [⟨"11289", "161", "Warfarin", "Paracetamol", "May increase risk of bleeding"⟩]
        "Paracetamol and Warfarin" =
      .response "Interactions checked successfully."
        [{ drug1 := "Warfarin", drug2 := "Paracetamol", rxcui1 := "11289",
           rxcui2 := "161", description := "May increase risk of bleeding",
           alert := "❗️ Severe interaction detected. Immediate consultation advised." }] := by
  constructor
  · intro ner get_rx ddi_df text msg res h x hx
    unfold check_interactions at h
    split at h
    · exact absurd h (by simp)
    · unfold find_interactions at h
      split at h
      · injection h with hmsg hres
        subst hres
        simp at hx
      · injection h with hmsg hres
        subst hres
        unfold interactionsFor at hx
        obtain ⟨p, hp, hxp⟩ := List.mem_flatMap.mp hx
        obtain ⟨row, hrow, hmk⟩ := List.mem_map.mp hxp
        unfold lookupPair at hrow
        exact ⟨row, (List.mem_filter.mp hrow).1, hmk.symm⟩
  · decide

theorem C10_result_fields_from_row_witness :
    ∃ row ∈ ([⟨"11289", "161", "Warfarin", "Paracetamol",
        "May increase risk of bleeding"⟩] : List DDIRow),
      ({ drug1 := "Warfarin", drug2 := "Paracetamol", rxcui1 := "11289",
         rxcui2 := "161", description := "May increase risk of bleeding",
         alert := "❗️ Severe interaction detected. Immediate consultation advised." }
        : InteractionResult) = mkInteractionResult row :=
  C10_result_fields_from_row.1 (fun _ => ["Paracetamol", "Warfarin"])
    (fun d => if d == "Paracetamol" then some "161" else some "11289")
    [⟨"11289", "161", "Warfarin", "Paracetamol", "May increase risk of bleeding"⟩]
    "Paracetamol and Warfarin" "Interactions checked successfully."
    [{ drug1 := "Warfarin", drug2 := "Paracetamol", rxcui1 := "11289",
       rxcui2 := "161", description := "May increase risk of bleeding",
       alert := "❗️ Severe interaction detected. Immediate consultation advised." }]
    (by decide) _ (by decide)

end MedVerify
